import Mathlib

/-!
Shallow embedding of `stocktracker.py` (manansrivastava/stocktracker).

The program is single-threaded glue around an external market-data
provider (yfinance), a local sqlite store, and matplotlib plotting.
We model:

* the provider as a pair of pure functions (`history`, `info`) — the
  program only ever passes them an exchange-qualified symbol string;
* a daily bar row of the fetched series (pandas DataFrame row) as `Bar`,
  with the series a chronologically ascending `List Bar`;
* the sqlite database as `DB`: a list of table names plus the rows of
  the `stocks` table, in insertion order;
* `save_to_db` takes the ambient current date (`DATE('now')`) as an
  explicit `today` argument;
* `track_multiple_stocks` additionally returns the chronological list of
  `save_to_db` invocations `(symbol, price)` it performs, so that claims
  about which append calls happen are statable;
* the interactive `while True` menu loop as `menuLoop`, consuming a list
  of `input()` lines; an exhausted input list models `input()` raising
  (EOF / early termination), in which case the trailing `conn.close()`
  statement of the script is never reached.  `runProgram` counts the
  `conn.close()` invocations.

Plotting calls have no effect on any modelled state and are dropped;
`plot_with_moving_averages` is modelled by the two rolling-mean series it
computes (pandas `rolling(n).mean()` with its default `min_periods = n`).
-/

/-- One row of the yfinance history DataFrame:
`(date, open, high, low, close, volume)`. -/
structure Bar where
  date : String
  open_ : ℚ
  high : ℚ
  low : ℚ
  close : ℚ
  volume : ℚ
  deriving Repr, DecidableEq

/-- The external market-data provider (yfinance), as seen by the program:
`history sym period` is the daily-bar series for the exchange-qualified
symbol `sym` over the trailing `period`, chronologically ascending, and
`info sym key` is the snapshot field `key` (`None` when the provider does
not supply it, as `dict.get` returns). -/
structure Provider where
  history : String → String → List Bar
  info : String → String → Option ℚ

/-- One row of the `stocks` table: `(symbol TEXT, date TEXT, price REAL)`. -/
structure Row where
  symbol : String
  date : String
  price : ℚ
  deriving Repr, DecidableEq

/-- The sqlite database: the set of existing tables (as a list of names,
duplicate-free in any state sqlite itself can produce) and the rows of the
`stocks` table in insertion order. -/
structure DB where
  tables : List String
  rows : List Row
  deriving Repr, DecidableEq

/-- The module-level initialization (lines 8-11):
`CREATE TABLE IF NOT EXISTS stocks (symbol TEXT, date TEXT, price REAL)`.
Creates the table only when absent; existing rows are untouched. -/
def initializeStore (db : DB) : DB :=
  if "stocks" ∈ db.tables then db
  else { db with tables := db.tables ++ ["stocks"] }

/-- `get_stock_price(ticker)`: `yf.Ticker(ticker + ".NS").history(period="6mo")`. -/
def get_stock_price (p : Provider) (ticker : String) : List Bar :=
  p.history (ticker ++ ".NS") "6mo"

/-- The descriptor returned by `get_stock_details`: the seven named snapshot
fields, each absent (`none`) exactly when the provider did not supply it. -/
structure Details where
  currentPrice : Option ℚ
  fiftyTwoWeekHigh : Option ℚ
  fiftyTwoWeekLow : Option ℚ
  marketCap : Option ℚ
  trailingPE : Option ℚ
  dividendYield : Option ℚ
  previousClose : Option ℚ
  deriving Repr, DecidableEq

/-- `get_stock_details(ticker)`: queries `yf.Ticker(ticker + ".NS").info`
and builds the seven-field mapping with `info.get(...)` for each field. -/
def get_stock_details (p : Provider) (ticker : String) : Details :=
  let info := p.info (ticker ++ ".NS")
  { currentPrice := info "currentPrice"
    fiftyTwoWeekHigh := info "fiftyTwoWeekHigh"
    fiftyTwoWeekLow := info "fiftyTwoWeekLow"
    marketCap := info "marketCap"
    trailingPE := info "trailingPE"
    dividendYield := info "dividendYield"
    previousClose := info "previousClose" }

/-- `save_to_db(ticker, price)`:
`INSERT INTO stocks (symbol, date, price) VALUES (?, DATE('now'), ?)` then
commit.  `today` is the ambient current date `DATE('now')`. -/
def save_to_db (today : String) (db : DB) (ticker : String) (price : ℚ) : DB :=
  { db with rows := db.rows ++ [⟨ticker, today, price⟩] }

/-- `track_multiple_stocks(tickers)`: for each ticker fetch the series and,
when it is non-empty, save the latest closing price
(`data["Close"].iloc[-1]`).  Besides the resulting database we return the
chronological list of `save_to_db` invocations `(ticker, price)`. -/
def track_multiple_stocks (p : Provider) (today : String) (db : DB) :
    List String → DB × List (String × ℚ)
  | [] => (db, [])
  | ticker :: rest =>
    match (get_stock_price p ticker).getLast? with
    | none => track_multiple_stocks p today db rest
    | some bar =>
      let r := track_multiple_stocks p today
        (save_to_db today db ticker bar.close) rest
      (r.1, (ticker, bar.close) :: r.2)

/-- Pandas `xs.rolling(n).mean()` on a column of length `len xs`: position
`i` (0-based) is `NaN` (here `none`) while fewer than `n` values are
available, and otherwise the mean of the `n` trailing values ending at
`i`. -/
def rollingMean (n : ℕ) (xs : List ℚ) : List (Option ℚ) :=
  (List.range xs.length).map fun i =>
    if i + 1 < n then none
    else some (((xs.take (i + 1)).drop (i + 1 - n)).sum / (n : ℚ))

/-- `plot_with_moving_averages(ticker)`: fetch the series; on an empty
series print a warning and return; otherwise compute the 50-day and
200-day rolling means of the `Close` column (the plotting itself has no
modelled effect). -/
def plot_with_moving_averages (p : Provider) (ticker : String) :
    Option (List (Option ℚ) × List (Option ℚ)) :=
  let data := get_stock_price p ticker
  if data = [] then none
  else
    some (rollingMean 50 (data.map Bar.close),
          rollingMean 200 (data.map Bar.close))

/-- Menu option 4 input parsing: `input(...).upper().split(", ")`. -/
def parseTickers (s : String) : List String :=
  s.toUpper.splitOn ", "

/-- The interactive `while True` menu loop, consuming one `input()` line
per iteration (and one more for the menu options that prompt for a
ticker).  Result: the final database and whether the loop exited normally
via option `"6"` (`break`).  An exhausted input list models `input()`
raising at EOF: the loop terminates abnormally (`false`) and, in the
script, control never reaches the `conn.close()` line.  Options 1, 2, 3
and 5 fetch and print but change no modelled state. -/
def menuLoop (p : Provider) (today : String) : List String → DB → DB × Bool
  | [], db => (db, false)
  | "1" :: rest, db => menuLoop p today rest db
  | "2" :: _ :: rest, db => menuLoop p today rest db
  | ["2"], db => (db, false)
  | "3" :: _ :: rest, db => menuLoop p today rest db
  | ["3"], db => (db, false)
  | "4" :: syms :: rest, db =>
    menuLoop p today rest (track_multiple_stocks p today db (parseTickers syms)).1
  | ["4"], db => (db, false)
  | "5" :: _ :: rest, db => menuLoop p today rest db
  | ["5"], db => (db, false)
  | "6" :: _, db => (db, true)
  | _ :: rest, db => menuLoop p today rest db

/-- The whole script run on a list of `input()` lines, starting from the
database state `db0` found on disk: module init, then the menu loop, then
`conn.close()` — which executes only when the loop exited via `break`.
The second component counts the `conn.close()` invocations performed. -/
def runProgram (p : Provider) (today : String) (db0 : DB)
    (inputs : List String) : DB × ℕ :=
  let r := menuLoop p today inputs (initializeStore db0)
  (r.1, if r.2 then 1 else 0)

/-- The arithmetic mean of a list of values (spec vocabulary: "the
arithmetic mean of the trailing N values ending at each position"). -/
def listMean (ys : List ℚ) : ℚ := ys.sum / (ys.length : ℚ)

/-- The trailing window of `xs` ending at position `i` (inclusive) for
window size `n`: the values pandas averages at position `i` once `n`
values are available. -/
def trailing (n i : ℕ) (xs : List ℚ) : List ℚ :=
  (xs.take (i + 1)).drop (i + 1 - n)

/-- The descriptor in which all seven fields are unknown. -/
def allUnknown : Details := ⟨none, none, none, none, none, none, none⟩

/-- A database state with no tables and no rows (fresh `stocks.db`). -/
def emptyDB : DB := ⟨[], []⟩

/-- A provider that has no data at all: every series is empty and every
snapshot field is absent (e.g., an invalid or delisted symbol). -/
def noDataProvider : Provider := ⟨fun _ _ => [], fun _ _ => none⟩

/-- A provider whose every series is the single bar closing at 108. -/
def oneBarProvider : Provider :=
  ⟨fun _ _ => [⟨"2026-01-02", 100, 110, 95, 108, 1000⟩], fun _ _ => none⟩

/-- A provider whose every series has 200 identical daily bars. -/
def bigProvider : Provider :=
  ⟨fun _ _ => List.replicate 200 ⟨"2026-01-02", 1, 1, 1, 1, 1⟩,
   fun _ _ => none⟩

/-! ## Theorems -/

/-- C3: `appendObservation` (`save_to_db`) inserts exactly one new row
`(symbol, today, price)` — the existing rows and the table list are
untouched, so there is no read-modify-write; in particular
`save_to_db("X", 108)` adds exactly the one new row `("X", today, 108)`. -/
theorem save_to_db_appends_one_row (today : String) (db : DB)
    (s : String) (pr : ℚ) :
    (save_to_db today db s pr).rows = db.rows ++ [⟨s, today, pr⟩] ∧
    (save_to_db today db s pr).tables = db.tables ∧
    (save_to_db today db s pr).rows.length = db.rows.length + 1 ∧
    (save_to_db today db "X" 108).rows = db.rows ++ [⟨"X", today, 108⟩] :=
  ⟨rfl, rfl, by simp [save_to_db], rfl⟩

/-- C10: `save_to_db` enforces no precondition on its arguments: every
symbol string (the empty string included) and every price (negative
values included) is inserted verbatim, with no validation. -/
theorem save_to_db_no_validation (today : String) (db : DB) :
    (∀ (s : String) (pr : ℚ),
      (save_to_db today db s pr).rows = db.rows ++ [⟨s, today, pr⟩]) ∧
    (save_to_db today db "" (-5)).rows = db.rows ++ [⟨"", today, -5⟩] :=
  ⟨fun _ _ => rfl, rfl⟩

/-- C8: both gateway calls query the provider with the exchange-qualified
symbol `ticker ++ ".NS"`, and `get_stock_price` always requests the fixed
trailing six-month window `"6mo"`. -/
theorem gateway_queries_qualified_symbol (p : Provider) (t : String) :
    get_stock_price p t = p.history (t ++ ".NS") "6mo" ∧
    get_stock_details p t =
      { currentPrice := p.info (t ++ ".NS") "currentPrice"
        fiftyTwoWeekHigh := p.info (t ++ ".NS") "fiftyTwoWeekHigh"
        fiftyTwoWeekLow := p.info (t ++ ".NS") "fiftyTwoWeekLow"
        marketCap := p.info (t ++ ".NS") "marketCap"
        trailingPE := p.info (t ++ ".NS") "trailingPE"
        dividendYield := p.info (t ++ ".NS") "dividendYield"
        previousClose := p.info (t ++ ".NS") "previousClose" } :=
  ⟨rfl, rfl⟩

/-- C4: `initializeStore` (the `CREATE TABLE IF NOT EXISTS` startup step)
is idempotent: from any database state sqlite can produce (at most one
`stocks` table), running it twice equals running it once, the second run
is a total function (no error), and afterwards exactly one `stocks`
table exists. -/
theorem initializeStore_idempotent (db : DB)
    (h : db.tables.count "stocks" ≤ 1) :
    initializeStore (initializeStore db) = initializeStore db ∧
    (initializeStore (initializeStore db)).tables.count "stocks" = 1 := by
  constructor
  · by_cases hm : "stocks" ∈ db.tables
    · simp [initializeStore, hm]
    · simp [initializeStore, hm]
  · by_cases hm : "stocks" ∈ db.tables
    · have h1 : 0 < db.tables.count "stocks" := List.count_pos_iff.mpr hm
      simp [initializeStore, hm]
      omega
    · have h0 : db.tables.count "stocks" = 0 :=
        List.count_eq_zero.mpr hm
      simp [initializeStore, hm, List.count_append, h0]

/-- Witness for C4 at the empty database. -/
theorem initializeStore_idempotent_witness :
    emptyDB.tables.count "stocks" ≤ 1 ∧
    (initializeStore (initializeStore emptyDB) = initializeStore emptyDB ∧
     (initializeStore (initializeStore emptyDB)).tables.count "stocks" = 1) :=
  ⟨by decide, initializeStore_idempotent emptyDB (by decide)⟩

/-- C6: `fetchDescriptor` (`get_stock_details`) always returns the
seven-field mapping in which each field is exactly the provider's value
for that key — absent (`none`) whenever the provider does not supply it,
never a fabricated default — and for a symbol with no snapshot data at
all (e.g., delisted) all seven fields are unknown and no error is
raised (the function is total). -/
theorem get_stock_details_fields (p : Provider) (t : String) :
    ((get_stock_details p t).currentPrice = p.info (t ++ ".NS") "currentPrice" ∧
     (get_stock_details p t).fiftyTwoWeekHigh = p.info (t ++ ".NS") "fiftyTwoWeekHigh" ∧
     (get_stock_details p t).fiftyTwoWeekLow = p.info (t ++ ".NS") "fiftyTwoWeekLow" ∧
     (get_stock_details p t).marketCap = p.info (t ++ ".NS") "marketCap" ∧
     (get_stock_details p t).trailingPE = p.info (t ++ ".NS") "trailingPE" ∧
     (get_stock_details p t).dividendYield = p.info (t ++ ".NS") "dividendYield" ∧
     (get_stock_details p t).previousClose = p.info (t ++ ".NS") "previousClose") ∧
    ((∀ k, p.info (t ++ ".NS") k = none) →
      get_stock_details p t = allUnknown) := by
  refine ⟨⟨rfl, rfl, rfl, rfl, rfl, rfl, rfl⟩, fun h => ?_⟩
  simp [get_stock_details, allUnknown, h]

/-- Witness for C6: a delisted symbol at a provider with no snapshot data
yields the all-unknown descriptor. -/
theorem get_stock_details_fields_witness :
    get_stock_details noDataProvider "ZZZZ999" = allUnknown :=
  (get_stock_details_fields noDataProvider "ZZZZ999").2 (fun _ => rfl)

/-- Helper: a symbol whose fetched series is empty never appears among the
`save_to_db` invocations of a comparison batch. -/
theorem track_no_event_of_empty (p : Provider) (today : String)
    (s : String) (hs : get_stock_price p s = []) :
    ∀ (tickers : List String) (db : DB) (pr : ℚ),
      (s, pr) ∉ (track_multiple_stocks p today db tickers).2 := by
  intro tickers
  induction tickers with
  | nil => intro db pr; simp [track_multiple_stocks]
  | cons t rest ih =>
    intro db pr
    cases hlast : (get_stock_price p t).getLast? with
    | none =>
      simp only [track_multiple_stocks, hlast]
      exact ih db pr
    | some bar =>
      simp only [track_multiple_stocks, hlast]
      intro hmem
      rcases List.mem_cons.mp hmem with heq | hmem2
      · have hst : s = t := congrArg Prod.fst heq
        rw [← hst, hs] at hlast
        simp at hlast
      · exact ih (save_to_db today db t bar.close) pr hmem2

/-- Helper: every `save_to_db` invocation of a comparison batch carries
exactly the closing price of the last bar of that symbol's series. -/
theorem track_event_sound (p : Provider) (today : String) :
    ∀ (tickers : List String) (db : DB) (s : String) (pr : ℚ),
      (s, pr) ∈ (track_multiple_stocks p today db tickers).2 →
      ∃ bar, (get_stock_price p s).getLast? = some bar ∧ pr = bar.close := by
  intro tickers
  induction tickers with
  | nil => intro db s pr h; simp [track_multiple_stocks] at h
  | cons t rest ih =>
    intro db s pr h
    cases hlast : (get_stock_price p t).getLast? with
    | none =>
      rw [track_multiple_stocks] at h
      simp only [hlast] at h
      exact ih db s pr h
    | some bar =>
      rw [track_multiple_stocks] at h
      simp only [hlast] at h
      rcases List.mem_cons.mp h with heq | hmem2
      · have hst : s = t := congrArg Prod.fst heq
        have hpr : pr = bar.close := congrArg Prod.snd heq
        exact ⟨bar, by rw [hst]; exact hlast, hpr⟩
      · exact ih (save_to_db today db t bar.close) s pr hmem2

/-- Helper: a ticker of the batch whose series is non-empty does get a
`save_to_db` invocation with the last bar's closing price. -/
theorem track_event_complete (p : Provider) (today : String) :
    ∀ (tickers : List String) (db : DB) (t : String) (bar : Bar),
      t ∈ tickers → (get_stock_price p t).getLast? = some bar →
      (t, bar.close) ∈ (track_multiple_stocks p today db tickers).2 := by
  intro tickers
  induction tickers with
  | nil => intro db t bar hmem; simp at hmem
  | cons u rest ih =>
    intro db t bar hmem hlast
    rcases List.mem_cons.mp hmem with heq | hmem2
    · subst heq
      simp only [track_multiple_stocks, hlast]
      exact List.mem_cons_self _ _
    · cases hu : (get_stock_price p u).getLast? with
      | none =>
        simp only [track_multiple_stocks, hu]
        exact ih db t bar hmem2 hlast
      | some baru =>
        simp only [track_multiple_stocks, hu]
        exact List.mem_cons_of_mem _
          (ih (save_to_db today db u baru.close) t bar hmem2 hlast)

/-- C1: for a symbol for which the provider has no data,
`get_stock_price` returns the empty series (it is total — no failure),
and in a `track_multiple_stocks` batch `save_to_db` is never invoked for
that symbol. -/
theorem no_data_no_append (p : Provider) (s : String)
    (hs : p.history (s ++ ".NS") "6mo" = []) :
    get_stock_price p s = [] ∧
    ∀ (today : String) (db : DB) (tickers : List String) (pr : ℚ),
      (s, pr) ∉ (track_multiple_stocks p today db tickers).2 :=
  ⟨hs, fun today db tickers pr => track_no_event_of_empty p today s hs tickers db pr⟩

/-- Witness for C1: an unknown symbol at a provider with no data, in a
batch that contains that very symbol. -/
theorem no_data_no_append_witness :
    noDataProvider.history ("ZZZZ999" ++ ".NS") "6mo" = [] ∧
    get_stock_price noDataProvider "ZZZZ999" = [] ∧
    ("ZZZZ999", (0 : ℚ)) ∉
      (track_multiple_stocks noDataProvider "2026-10-12" emptyDB
        ["ZZZZ999", "TCS"]).2 :=
  ⟨rfl, (no_data_no_append noDataProvider "ZZZZ999" rfl).1,
    (no_data_no_append noDataProvider "ZZZZ999" rfl).2
      "2026-10-12" emptyDB ["ZZZZ999", "TCS"] 0⟩

/-- C2: for a ticker of a comparison batch whose fetched series is
non-empty, `save_to_db` is invoked for it with exactly the closing price
of the last (chronologically most recent) bar of that series, and every
`save_to_db` invocation for that ticker in the batch carries exactly that
price. -/
theorem latest_close_persisted (p : Provider) (today : String) (db : DB)
    (tickers : List String) (t : String) (bar : Bar)
    (hmem : t ∈ tickers)
    (hlast : (get_stock_price p t).getLast? = some bar) :
    (t, bar.close) ∈ (track_multiple_stocks p today db tickers).2 ∧
    ∀ pr, (t, pr) ∈ (track_multiple_stocks p today db tickers).2 →
      pr = bar.close := by
  refine ⟨track_event_complete p today tickers db t bar hmem hlast, ?_⟩
  intro pr hpr
  obtain ⟨bar2, h2, h3⟩ := track_event_sound p today tickers db t pr hpr
  rw [hlast] at h2
  rw [h3, Option.some_inj.mp h2]

/-- Witness for C2: a one-ticker batch at a provider with a single bar
closing at 108. -/
theorem latest_close_persisted_witness :
    "X" ∈ ["X"] ∧
    (get_stock_price oneBarProvider "X").getLast? =
      some ⟨"2026-01-02", 100, 110, 95, 108, 1000⟩ ∧
    ("X", (108 : ℚ)) ∈
      (track_multiple_stocks oneBarProvider "2026-10-12" emptyDB ["X"]).2 :=
  ⟨by simp, rfl,
    (latest_close_persisted oneBarProvider "2026-10-12" emptyDB ["X"] "X"
      ⟨"2026-01-02", 100, 110, 95, 108, 1000⟩ (by simp) rfl).1⟩

/-- Helper: a comparison batch only ever appends rows — the final rows are
the initial rows followed by one row per `save_to_db` invocation, dated
`today`. -/
theorem track_rows_eq (p : Provider) (today : String) :
    ∀ (tickers : List String) (db : DB),
      (track_multiple_stocks p today db tickers).1.rows =
        db.rows ++ ((track_multiple_stocks p today db tickers).2.map
          fun e => (⟨e.1, today, e.2⟩ : Row)) := by
  intro tickers
  induction tickers with
  | nil => intro db; simp [track_multiple_stocks]
  | cons t rest ih =>
    intro db
    cases hlast : (get_stock_price p t).getLast? with
    | none =>
      simp only [track_multiple_stocks, hlast]
      exact ih db
    | some bar =>
      simp only [track_multiple_stocks, hlast, List.map_cons]
      rw [ih (save_to_db today db t bar.close)]
      simp [save_to_db]

/-- Helper: the menu loop only ever appends rows to the database. -/
theorem menuLoop_rows (p : Provider) (today : String)
    (inputs : List String) (db : DB) :
    ∃ tl, (menuLoop p today inputs db).1.rows = db.rows ++ tl := by
  induction inputs, db using menuLoop.induct p today with
  | case1 db => exact ⟨[], by simp [menuLoop]⟩
  | case2 rest db ih =>
    obtain ⟨tl, htl⟩ := ih
    exact ⟨tl, by simpa only [menuLoop] using htl⟩
  | case3 h rest db ih =>
    obtain ⟨tl, htl⟩ := ih
    exact ⟨tl, by simpa only [menuLoop] using htl⟩
  | case4 db => exact ⟨[], by simp [menuLoop]⟩
  | case5 h rest db ih =>
    obtain ⟨tl, htl⟩ := ih
    exact ⟨tl, by simpa only [menuLoop] using htl⟩
  | case6 db => exact ⟨[], by simp [menuLoop]⟩
  | case7 syms rest db ih =>
    obtain ⟨tl, htl⟩ := ih
    refine ⟨((track_multiple_stocks p today db (parseTickers syms)).2.map
      fun e => (⟨e.1, today, e.2⟩ : Row)) ++ tl, ?_⟩
    rw [show menuLoop p today ("4" :: syms :: rest) db =
      menuLoop p today rest
        (track_multiple_stocks p today db (parseTickers syms)).1 from by
          simp only [menuLoop]]
    rw [htl, track_rows_eq p today (parseTickers syms) db, List.append_assoc]
  | case8 db => exact ⟨[], by simp [menuLoop]⟩
  | case9 h rest db ih =>
    obtain ⟨tl, htl⟩ := ih
    exact ⟨tl, by simpa only [menuLoop] using htl⟩
  | case10 db => exact ⟨[], by simp [menuLoop]⟩
  | case11 tail db => exact ⟨[], by simp [menuLoop]⟩
  | case12 h rest db h1 h2 h3 h4 h5 h6 h7 h8 h9 h10 ih =>
    obtain ⟨tl, htl⟩ := ih
    exact ⟨tl, by
      rw [menuLoop.eq_12 p today db h rest h1 h2 h3 h4 h5 h6 h7 h8 h9 h10]
      exact htl⟩

/-- C9: the price-history store is append-only: neither startup
initialization, nor a single append, nor a comparison batch, nor a whole
interactive run ever updates or deletes an existing row — the rows
present before each operation are still there, in order, at its front,
afterwards — and no uniqueness constraint exists: appending the same
symbol twice on the same date yields (at least) two rows with that
symbol/date pair. -/
theorem store_append_only (p : Provider) (today : String) :
    (∀ db : DB, (initializeStore db).rows = db.rows) ∧
    (∀ (db : DB) (s : String) (pr : ℚ),
      (save_to_db today db s pr).rows = db.rows ++ [⟨s, today, pr⟩]) ∧
    (∀ (db : DB) (tickers : List String), ∃ new,
      (track_multiple_stocks p today db tickers).1.rows = db.rows ++ new) ∧
    (∀ (db0 : DB) (inputs : List String), ∃ new,
      (runProgram p today db0 inputs).1.rows = db0.rows ++ new) ∧
    (∀ (db : DB) (s : String) (pr1 pr2 : ℚ), 2 ≤
      ((save_to_db today (save_to_db today db s pr1) s pr2).rows.filter
        fun r => r.symbol == s && r.date == today).length) := by
  have hinit : ∀ db : DB, (initializeStore db).rows = db.rows := by
    intro db
    by_cases hm : "stocks" ∈ db.tables <;> simp [initializeStore, hm]
  refine ⟨hinit, fun _ _ _ => rfl, ?_, ?_, ?_⟩
  · intro db tickers
    exact ⟨_, track_rows_eq p today tickers db⟩
  · intro db0 inputs
    obtain ⟨tl, htl⟩ := menuLoop_rows p today inputs (initializeStore db0)
    refine ⟨tl, ?_⟩
    simp only [runProgram]
    rw [htl, hinit db0]
  · intro db s pr1 pr2
    simp [save_to_db, List.filter_append]

/-- C7 (amended): `conn.close()` is invoked exactly once when the
interactive loop exits normally via the Exit option (`break`), and zero
times when the run terminates early (the loop ends without `break`, as
when `input()` raises at exhausted input), since the script has no
try/finally around the loop. -/
theorem close_called_iff_normal_exit (p : Provider) (today : String)
    (db0 : DB) (inputs : List String) :
    ((menuLoop p today inputs (initializeStore db0)).2 = true ∧
      (runProgram p today db0 inputs).2 = 1) ∨
    ((menuLoop p today inputs (initializeStore db0)).2 = false ∧
      (runProgram p today db0 inputs).2 = 0) := by
  cases hb : (menuLoop p today inputs (initializeStore db0)).2
  · exact Or.inr ⟨rfl, by simp [runProgram, hb]⟩
  · exact Or.inl ⟨rfl, by simp [runProgram, hb]⟩

/-- Counterexample to C7 as stated: a run that terminates early (EOF at
the very first `input()`) never reaches the `conn.close()` line — the
connection is closed zero times, not exactly once. -/
theorem close_skipped_on_early_termination :
    (runProgram noDataProvider "2026-10-12" emptyDB []).2 = 0 ∧
    ¬ (runProgram noDataProvider "2026-10-12" emptyDB []).2 = 1 := by
  decide

/-- Helper: a rolling mean has the same length as its input column. -/
theorem rollingMean_length (n : ℕ) (xs : List ℚ) :
    (rollingMean n xs).length = xs.length := by
  simp [rollingMean]

/-- Helper: the entry of a rolling mean at a valid position. -/
theorem rollingMean_getElem? (n i : ℕ) (xs : List ℚ) (h : i < xs.length) :
    (rollingMean n xs)[i]? =
      some (if i + 1 < n then none
        else some (((xs.take (i + 1)).drop (i + 1 - n)).sum / (n : ℚ))) := by
  simp [rollingMean, List.getElem?_map, List.getElem?_range, h]

/-- Helper: with fewer than `n` values available the rolling mean is
unknown. -/
theorem rollingMean_unknown_at_start (n i : ℕ) (xs : List ℚ)
    (h : i < xs.length) (hi : i + 1 < n) :
    (rollingMean n xs)[i]? = some none := by
  rw [rollingMean_getElem? n i xs h, if_pos hi]

/-- Helper: the trailing window has exactly `n` values once `n` values are
available. -/
theorem trailing_length (n i : ℕ) (xs : List ℚ)
    (h1 : n ≤ i + 1) (h2 : i < xs.length) :
    (trailing n i xs).length = n := by
  simp only [trailing, List.length_drop, List.length_take]
  omega

/-- Helper: once `n` values are available, the rolling mean is the
arithmetic mean of the `n` trailing values. -/
theorem rollingMean_is_trailing_mean (n i : ℕ) (xs : List ℚ)
    (h1 : n ≤ i + 1) (h2 : i < xs.length) :
    (rollingMean n xs)[i]? = some (some (listMean (trailing n i xs))) := by
  rw [rollingMean_getElem? n i xs h2, if_neg (by omega)]
  have hlen := trailing_length n i xs h1 h2
  simp only [listMean]
  rw [hlen]
  simp only [trailing]

/-- C5: on a series of length at least 200, the 50-day and 200-day rolling
means computed by `plot_with_moving_averages` each have the same length as
the input, exactly the first 49 (respectively 199) entries are unknown,
and every later entry is the arithmetic mean of the trailing 50
(respectively 200) closing prices ending at that position. -/
theorem moving_averages_windows (p : Provider) (t : String)
    (h : 200 ≤ (get_stock_price p t).length) :
    ∃ ma50 ma200,
      plot_with_moving_averages p t = some (ma50, ma200) ∧
      ma50.length = (get_stock_price p t).length ∧
      ma200.length = (get_stock_price p t).length ∧
      (∀ i, i < 49 → ma50[i]? = some none) ∧
      (∀ i, 49 ≤ i → i < (get_stock_price p t).length →
        ma50[i]? = some (some (listMean
          (trailing 50 i ((get_stock_price p t).map Bar.close))))) ∧
      (∀ i, i < 199 → ma200[i]? = some none) ∧
      (∀ i, 199 ≤ i → i < (get_stock_price p t).length →
        ma200[i]? = some (some (listMean
          (trailing 200 i ((get_stock_price p t).map Bar.close))))) := by
  have hne : get_stock_price p t ≠ [] := by
    intro hnil
    rw [hnil] at h
    simp at h
  have hcl : ((get_stock_price p t).map Bar.close).length =
      (get_stock_price p t).length := by simp
  refine ⟨rollingMean 50 ((get_stock_price p t).map Bar.close),
    rollingMean 200 ((get_stock_price p t).map Bar.close),
    ?_, ?_, ?_, ?_, ?_, ?_, ?_⟩
  · simp [plot_with_moving_averages, hne]
  · rw [rollingMean_length, hcl]
  · rw [rollingMean_length, hcl]
  · intro i hi
    exact rollingMean_unknown_at_start 50 i _ (by rw [hcl]; omega) (by omega)
  · intro i h49 hlen
    exact rollingMean_is_trailing_mean 50 i _ (by omega)
      (by rw [hcl]; exact hlen)
  · intro i hi
    exact rollingMean_unknown_at_start 200 i _ (by rw [hcl]; omega) (by omega)
  · intro i h199 hlen
    exact rollingMean_is_trailing_mean 200 i _ (by omega)
      (by rw [hcl]; exact hlen)

/-- Witness for C5 at a provider whose series has exactly 200 bars. -/
theorem moving_averages_windows_witness :
    200 ≤ (get_stock_price bigProvider "T").length ∧
    (∃ ma50 ma200,
      plot_with_moving_averages bigProvider "T" = some (ma50, ma200) ∧
      ma50.length = (get_stock_price bigProvider "T").length ∧
      ma200.length = (get_stock_price bigProvider "T").length ∧
      (∀ i, i < 49 → ma50[i]? = some none) ∧
      (∀ i, 49 ≤ i → i < (get_stock_price bigProvider "T").length →
        ma50[i]? = some (some (listMean
          (trailing 50 i ((get_stock_price bigProvider "T").map Bar.close))))) ∧
      (∀ i, i < 199 → ma200[i]? = some none) ∧
      (∀ i, 199 ≤ i → i < (get_stock_price bigProvider "T").length →
        ma200[i]? = some (some (listMean
          (trailing 200 i ((get_stock_price bigProvider "T").map Bar.close)))))) :=
  ⟨by rw [show get_stock_price bigProvider "T" =
        List.replicate 200 ⟨"2026-01-02", 1, 1, 1, 1, 1⟩ from rfl,
      List.length_replicate],
    moving_averages_windows bigProvider "T"
      (by rw [show get_stock_price bigProvider "T" =
          List.replicate 200 ⟨"2026-01-02", 1, 1, 1, 1, 1⟩ from rfl,
        List.length_replicate])⟩
